import Mathlib

/-!
# Placement resolution and registry detection (`pkg/utils/placement.go`)

A shallow embedding of `ToPlaceLocal`, `PlaceByGenericPlacmentFields`,
`IsReadyACMClusterRegistry` and `DetectClusterRegistry`, followed by the
properties proved about them.

Conventions of the embedding:

* a Go pointer that may be `nil` is an `Option`;
* a Go `map[string]V` is a `Finmap` keyed by `String` (unordered, one value per
  key, equal exactly when the lookups agree); a map that may be `nil` is an
  `Option` of it;
* a Go `error` is an `Option ε` (`none` is the `nil` error); a function that
  returns a value or else an error is an `Except ε _`; a call that writes into
  a list it is handed and returns an error yields the list after the call next
  to the error;
* the collaborators that live outside the file (`ConvertLabels`,
  `errors.IsNotFound`, the registry client) are parameters;
* every call made on a collaborator is recorded, in order, in the result.
-/

namespace PlacementUtils

/-! ## Data model -/

/-- Go `map[string]V`. -/
abbrev GoMap (V : Type) : Type := Finmap (fun _ : String => V)

/-- Go `make(map[string]V)`: a fresh map without entries. -/
def GoMap.make (V : Type) : GoMap V := ∅

/-- Go `m[k] = v`. -/
def GoMap.set {V : Type} (m : GoMap V) (k : String) (v : V) : GoMap V :=
  Finmap.insert k v m

/-- Go `v, ok := m[k]`. -/
def GoMap.get? {V : Type} (m : GoMap V) (k : String) : Option V :=
  Finmap.lookup k m

/-- Go `len(m)`. -/
def GoMap.len {V : Type} (m : GoMap V) : Nat := m.keys.card

/-- The type `metav1.LabelSelectorOperator`, a string. -/
abbrev LabelSelectorOperator : Type := String

/-- The constant `metav1.LabelSelectorOpIn`. -/
def LabelSelectorOpIn : LabelSelectorOperator := "In"

/-- The constant `metav1.LabelSelectorOpNotIn`. -/
def LabelSelectorOpNotIn : LabelSelectorOperator := "NotIn"

/-- The constant `metav1.LabelSelectorOpExists`. -/
def LabelSelectorOpExists : LabelSelectorOperator := "Exists"

/-- The constant `metav1.LabelSelectorOpDoesNotExist`. -/
def LabelSelectorOpDoesNotExist : LabelSelectorOperator := "DoesNotExist"

/-- The struct `metav1.LabelSelectorRequirement`. -/
structure LabelSelectorRequirement where
  Key : String
  Operator : LabelSelectorOperator
  Values : List String
  deriving DecidableEq, Repr

/-- The struct `metav1.LabelSelector`; `MatchLabels` is kept as the list of
its key/value pairs. -/
structure LabelSelector where
  MatchLabels : List (String × String)
  MatchExpressions : List LabelSelectorRequirement
  deriving DecidableEq, Repr

/-- The zero value `metav1.LabelSelectorRequirement{}`. -/
def LabelSelectorRequirement.zero : LabelSelectorRequirement :=
  { Key := "", Operator := "", Values := [] }

/-- How Kubernetes evaluates one requirement of a label selector on a label
set (`labels.Requirement.Matches`); an operator outside the four known ones
matches nothing. -/
def LabelSelectorRequirement.Matches (r : LabelSelectorRequirement)
    (labels : List (String × String)) : Bool :=
  if r.Operator = LabelSelectorOpIn then
    match labels.lookup r.Key with
    | some v => decide (v ∈ r.Values)
    | none => false
  else if r.Operator = LabelSelectorOpNotIn then
    match labels.lookup r.Key with
    | some v => decide (v ∉ r.Values)
    | none => true
  else if r.Operator = LabelSelectorOpExists then
    (labels.lookup r.Key).isSome
  else if r.Operator = LabelSelectorOpDoesNotExist then
    (labels.lookup r.Key).isNone
  else
    false

/-- How Kubernetes evaluates a label selector on a label set: every pair of
`MatchLabels` is carried and every requirement of `MatchExpressions` matches. -/
def LabelSelector.Matches (sel : LabelSelector) (labels : List (String × String)) : Bool :=
  sel.MatchLabels.all (fun kv => decide (labels.lookup kv.1 = some kv.2)) &&
    sel.MatchExpressions.all (fun r => r.Matches labels)

/-- The part of `clusterv1alpha1.Cluster` this file reads: the object name
(with its namespace) and the labels. -/
structure Cluster where
  Name : String
  Namespace : String
  Labels : List (String × String)
  deriving DecidableEq, Repr

/-- The generated `(*Cluster).DeepCopy`: a fresh value with every field copied. -/
def Cluster.DeepCopy (c : Cluster) : Cluster :=
  { Name := c.Name, Namespace := c.Namespace, Labels := c.Labels.map (fun kv => (kv.1, kv.2)) }

/-- Go `labels[key]` with the presence flag. -/
def Cluster.label (c : Cluster) (key : String) : Option String :=
  c.Labels.lookup key

/-- Modelled from the spec: the type `GenericClusterReference` of
`pkg/apis/apps/v1`, an explicit cluster-name reference. -/
structure GenericClusterReference where
  Name : String
  deriving DecidableEq, Repr

/-- Modelled from the spec: the type `GenericPlacementFields` of
`pkg/apis/apps/v1`: an ordered sequence of explicit cluster-name references
and an optional label selector. -/
structure GenericPlacementFields where
  Clusters : List GenericClusterReference
  ClusterSelector : Option LabelSelector
  deriving DecidableEq, Repr

/-- Modelled from the spec: the type `Placement` of `pkg/apis/apps/v1`: the
generic placement fields and the optional `Local` flag. -/
structure Placement where
  GenericPlacementFields : GenericPlacementFields
  Local : Option Bool
  deriving DecidableEq, Repr

/-- The struct `client.ListOptions`, reduced to the field this file sets; the
selector is an interface value, `none` when the options are left empty. -/
structure ListOptions (σ : Type) where
  LabelSelector : Option σ

/-- The registry client, `client.Client` or `client.Reader`, as far as this
file uses it: `List opts list` is handed the items of the list to fill and
yields the items that list holds after the call together with the error the
call returns. Nothing ties the two together: a call may write items and
return an error all the same. -/
structure Client (σ ε : Type) where
  List : ListOptions σ → List Cluster → List Cluster × Option ε

/-- A call made on a collaborator. -/
inductive Call (σ : Type) where
  | ConvertLabels (labelSelector : Option LabelSelector)
  | List (opts : ListOptions σ)

/-- What a call of `PlaceByGenericPlacmentFields` yields: the two returned
values (`clmap = none` is the `nil` map, `err = none` the `nil` error) and the
calls it made on its collaborators, in order. -/
structure Resolution (σ ε : Type) where
  clmap : Option (GoMap Cluster)
  err : Option ε
  calls : List (Call σ)

/-! ## `ToPlaceLocal` -/

/-- The function `ToPlaceLocal` (lines 35-41). -/
def ToPlaceLocal (placement : Option Placement) : Bool :=
  match placement with
  | none => false
  | some p =>
    match p.Local with
    | none => false
    | some b => b

/-! ## `PlaceByGenericPlacmentFields` -/

/-- Lines 54-64: the selector built from the explicit cluster names, one
requirement `name In [names...]`, the values appended one by one in order. -/
def clusterNameSelector (clusters : List GenericClusterReference) : LabelSelector :=
  let namereq := LabelSelectorRequirement.zero
  let namereq := { namereq with Key := "name" }
  let namereq := { namereq with Operator := LabelSelectorOpIn }
  let namereq := clusters.foldl
    (fun (req : LabelSelectorRequirement) cl => { req with Values := req.Values ++ [cl.Name] }) namereq
  { MatchLabels := [], MatchExpressions := [namereq] }

/-- Lines 50-67: the selector handed to `ConvertLabels`. -/
def effectiveSelector (placement : GenericPlacementFields) : Option LabelSelector :=
  if placement.Clusters.length ≠ 0 then
    some (clusterNameSelector placement.Clusters)
  else
    placement.ClusterSelector

/-- Lines 88-90: the loop storing a deep copy of every listed cluster under
its name. -/
def collect (clmap : GoMap Cluster) (items : List Cluster) : GoMap Cluster :=
  items.foldl (fun m cl => m.set cl.Name cl.DeepCopy) clmap

/-- The function `PlaceByGenericPlacmentFields` (lines 46-93). `ConvertLabels`
and `errors.IsNotFound` are defined outside the file and are parameters;
`authclient` and `object` are accepted and never read; the `klog` lines write
to the log only. The list handed to `List` starts empty (line 77); the loop of
line 88 reads what the list holds after the call, also when the call reported
a not-found error. -/
def PlaceByGenericPlacmentFields {σ ε α β : Type}
    (ConvertLabels : Option LabelSelector → Except ε σ) (IsNotFound : ε → Bool)
    (kubeclient : Client σ ε) (placement : GenericPlacementFields)
    (_authclient : α) (_object : β) : Resolution σ ε :=
  let clmap : GoMap Cluster := GoMap.make Cluster
  let labelSelector := effectiveSelector placement
  match ConvertLabels labelSelector with
  | .error err => { clmap := none, err := some err, calls := [.ConvertLabels labelSelector] }
  | .ok clSelector =>
    let cllist : List Cluster := []
    let opts : ListOptions σ := { LabelSelector := some clSelector }
    let listed := kubeclient.List opts cllist
    let cllist := listed.1
    let err := listed.2
    let calls : List (Call σ) := [.ConvertLabels labelSelector, .List opts]
    match err with
    | some e =>
      if IsNotFound e = false then
        { clmap := none, err := some e, calls := calls }
      else
        { clmap := some (collect clmap cllist), err := none, calls := calls }
    | none => { clmap := some (collect clmap cllist), err := none, calls := calls }

/-- The last cluster of a list that carries the name `n`, if any. -/
def lastNamed (items : List Cluster) (n : String) : Option Cluster :=
  (items.filter (fun c => decide (c.Name = n))).getLast?

/-! ## `IsReadyACMClusterRegistry` and `DetectClusterRegistry` -/

/-- The function `IsReadyACMClusterRegistry` (lines 106-121): one `List` call
with empty options, ready exactly when the call reports no error. -/
def IsReadyACMClusterRegistry {σ ε : Type} (clReader : Client σ ε) : Bool :=
  let cllist : List Cluster := []
  let listopts : ListOptions σ := { LabelSelector := none }
  let err := (clReader.List listopts cllist).2
  match err with
  | none => true
  | some _ => false

/-- Where a run of `DetectClusterRegistry` stands. -/
inductive Status where
  /-- The function returned without starting the polling task. -/
  | returned
  /-- The polling task is started and waits for its next round. -/
  | polling
  /-- The polling task saw the stop channel closed and ended. -/
  | stopped
  /-- The process was ended by `os.Exit(code)`. -/
  | exited (code : Nat)
  deriving DecidableEq, Repr

/-- A run of `DetectClusterRegistry` as observed: whether the polling task was
started, how many readiness probes were made, and where the run stands. -/
structure Watch where
  started : Bool
  probes : Nat
  status : Status
  deriving DecidableEq, Repr

/-- The polling task `wait.Until(f, 10s, s)` of lines 127-131, for at most
`fuel` rounds, entered when `n` probes have been made: each round first
consults the stop channel (`s n` tells whether it is found closed once `n`
probes have been made) and ends the task if it is closed, else runs `f`, which
probes the registry and exits the process with status 1 when it is ready;
otherwise the task waits for the period and goes round again. The registry is
observed over time: `clReader n` is the reader as it answers the probe made
after `n` earlier probes. -/
def poll {σ ε : Type} (clReader : Nat → Client σ ε) (s : Nat → Bool) : Nat → Nat → Watch
  | 0, n => { started := true, probes := n, status := Status.polling }
  | fuel + 1, n =>
    if s n then
      { started := true, probes := n, status := Status.stopped }
    else if IsReadyACMClusterRegistry (clReader n) then
      { started := true, probes := n + 1, status := Status.exited 1 }
    else
      poll clReader s fuel (n + 1)

/-- The function `DetectClusterRegistry` (lines 125-133), the polling task
followed for at most `fuel` rounds. -/
def DetectClusterRegistry {σ ε : Type} (clReader : Nat → Client σ ε) (s : Nat → Bool)
    (fuel : Nat) : Watch :=
  if !IsReadyACMClusterRegistry (clReader 0) then
    poll clReader s fuel 1
  else
    { started := false, probes := 1, status := Status.returned }

/-! ## Sample collaborators for the worked examples -/

/-- Whether a string is a valid label value as Kubernetes checks it: at most
63 characters, empty or made of letters, digits, `-`, `_` and `.` with a
letter or digit at both ends. -/
def validLabelValue (v : String) : Bool :=
  decide (v.length ≤ 63) &&
    v.data.all (fun c => c.isAlphanum || c.toNat = 45 || c.toNat = 95 || c.toNat = 46) &&
    (match v.data.head? with
      | some c => c.isAlphanum
      | none => true) &&
    (match v.data.getLast? with
      | some c => c.isAlphanum
      | none => true)

/-- A sample `ConvertLabels`, checking as the Kubernetes conversion does: it
refuses a selector holding a requirement with an empty key or with a value
that is no valid label value, and otherwise hands the selector on as the query
predicate. -/
def sampleConvert (labelSelector : Option LabelSelector) : Except String (Option LabelSelector) :=
  match labelSelector with
  | none => .ok none
  | some sel =>
    if sel.MatchExpressions.any (fun r => r.Key = "") then .error "empty key"
    else if sel.MatchExpressions.any (fun r => r.Values.any (fun v => !validLabelValue v)) then
      .error "invalid label value"
    else .ok (some sel)

/-- A sample `errors.IsNotFound`. -/
def sampleIsNotFound (e : String) : Bool := e = "not found"

/-- A sample registry client: `List` delivers the registered clusters that
satisfy the selector of the options, in registration order. -/
def registryClient (registry : List Cluster) : Client (Option LabelSelector) String :=
  { List := fun opts _ =>
      (registry.filter (fun c =>
        match opts.LabelSelector with
        | some (some sel) => sel.Matches c.Labels
        | _ => true), none) }

/-- A sample registry client whose `List` reports the error `e` and leaves the
list it is handed as it is. -/
def failingClient (e : String) : Client (Option LabelSelector) String :=
  { List := fun _ list => (list, some e) }

/-- A sample registry client whose `List` writes `items` into the list it is
handed and reports the error `e`. -/
def fillingClient (items : List Cluster) (e : String) : Client (Option LabelSelector) String :=
  { List := fun _ _ => (items, some e) }

/-- A sample registry observed over time: its `List` fails until `k` probes
have been made and succeeds, with no items, from then on. -/
def readyAfter (k : Nat) (n : Nat) : Client (Option LabelSelector) String :=
  if n < k then failingClient "no such service" else registryClient []

/-- A sample selector: the label `env` equal to `prod`. -/
def envProd : LabelSelector :=
  { MatchLabels := [("env", "prod")], MatchExpressions := [] }

/-- A sample selector the sample conversion refuses: a requirement with an
empty key. -/
def emptyKey : LabelSelector :=
  { MatchLabels := [], MatchExpressions := [{ Key := "", Operator := "Exists", Values := [] }] }

/-- A sample cluster labelled with its own name. -/
def namedCluster (name : String) : Cluster :=
  { Name := name, Namespace := name, Labels := [("name", name)] }

/-- A sample cluster labelled `env = prod`. -/
def prodCluster (name : String) : Cluster :=
  { Name := name, Namespace := name, Labels := [("name", name), ("env", "prod")] }

/-- A sample cluster without labels in the namespace `ns`. -/
def clusterIn (name ns : String) : Cluster :=
  { Name := name, Namespace := ns, Labels := [] }

/-! ## Auxiliary facts -/

theorem DeepCopy_eq (c : Cluster) : c.DeepCopy = c := by
  cases c with
  | mk n ns ls =>
    simp only [Cluster.DeepCopy]
    congr 1
    exact List.map_id _

theorem nameValues_foldl (clusters : List GenericClusterReference) (req : LabelSelectorRequirement) :
    clusters.foldl
      (fun (r : LabelSelectorRequirement) cl => { r with Values := r.Values ++ [cl.Name] }) req
      = { req with Values := req.Values ++ clusters.map (fun cl => cl.Name) } := by
  induction clusters generalizing req with
  | nil => simp
  | cons c cs ih => simp [List.foldl_cons, ih]

theorem clusterNameSelector_eq (clusters : List GenericClusterReference) :
    clusterNameSelector clusters =
      { MatchLabels := [],
        MatchExpressions :=
          [{ Key := "name", Operator := "In", Values := clusters.map (fun cl => cl.Name) }] } := by
  simp [clusterNameSelector, nameValues_foldl, LabelSelectorRequirement.zero, LabelSelectorOpIn]

theorem effectiveSelector_of_ne_nil (placement : GenericPlacementFields)
    (h : placement.Clusters ≠ []) :
    effectiveSelector placement = some (clusterNameSelector placement.Clusters) := by
  have hlen : placement.Clusters.length ≠ 0 := by
    intro h0
    exact h (List.length_eq_zero.mp h0)
  simp [effectiveSelector, hlen]

theorem effectiveSelector_of_nil (placement : GenericPlacementFields)
    (h : placement.Clusters = []) :
    effectiveSelector placement = placement.ClusterSelector := by
  simp [effectiveSelector, h]

theorem collect_append (m : GoMap Cluster) (xs : List Cluster) (x : Cluster) :
    collect m (xs ++ [x]) = (collect m xs).set x.Name x.DeepCopy := by
  simp [collect, List.foldl_append]

theorem lastNamed_append (xs : List Cluster) (x : Cluster) (n : String) :
    lastNamed (xs ++ [x]) n = if x.Name = n then some x else lastNamed xs n := by
  unfold lastNamed
  by_cases h : x.Name = n
  · simp [List.filter_append, h]
  · simp [List.filter_append, h]

/-- The loop of lines 88-90 leaves under every key the copy of the last
listed cluster of that name, and the earlier content elsewhere. -/
theorem collect_get? (m : GoMap Cluster) (items : List Cluster) (k : String) :
    (collect m items).get? k =
      match lastNamed items k with
      | some c => some c.DeepCopy
      | none => m.get? k := by
  induction items using List.reverseRecOn with
  | nil => simp [collect, lastNamed]
  | append_singleton xs x ih =>
    rw [collect_append, lastNamed_append]
    by_cases h : x.Name = k
    · subst h
      simp [GoMap.set, GoMap.get?, Finmap.lookup_insert]
    · have hk : k ≠ x.Name := fun e => h e.symm
      simp only [GoMap.set, GoMap.get?, if_neg h]
      rw [Finmap.lookup_insert_of_ne _ hk]
      exact ih

theorem lastNamed_mem {items : List Cluster} {n : String} {c : Cluster}
    (h : lastNamed items n = some c) : c ∈ items ∧ c.Name = n := by
  unfold lastNamed at h
  have hmem := List.mem_of_getLast?_eq_some h
  simpa using hmem

theorem lastNamed_eq_none {items : List Cluster} {n : String} :
    lastNamed items n = none ↔ ∀ c ∈ items, c.Name ≠ n := by
  unfold lastNamed
  rw [List.getLast?_eq_none_iff, List.filter_eq_nil_iff]
  simp

theorem lastNamed_isSome {items : List Cluster} {n : String} :
    (∃ c, lastNamed items n = some c) ↔ ∃ c ∈ items, c.Name = n := by
  constructor
  · rintro ⟨c, hc⟩
    exact ⟨c, lastNamed_mem hc⟩
  · rintro ⟨c, hc, hn⟩
    cases h : lastNamed items n with
    | none => exact absurd hn (lastNamed_eq_none.mp h c hc)
    | some d => exact ⟨d, rfl⟩

theorem eq_of_name_eq {items : List Cluster} (hnd : (items.map (fun c => c.Name)).Nodup)
    {a b : Cluster} (ha : a ∈ items) (hb : b ∈ items) (hab : a.Name = b.Name) : a = b :=
  List.inj_on_of_nodup_map hnd ha hb hab

theorem lastNamed_of_nodup {items : List Cluster} (hnd : (items.map (fun c => c.Name)).Nodup)
    {c : Cluster} (hc : c ∈ items) : lastNamed items c.Name = some c := by
  cases h : lastNamed items c.Name with
  | none => exact absurd rfl (lastNamed_eq_none.mp h c hc)
  | some d =>
    have hd := lastNamed_mem h
    rw [eq_of_name_eq hnd hd.1 hc hd.2]

theorem collect_empty_get? (items : List Cluster) (k : String) :
    (collect (GoMap.make Cluster) items).get? k = (lastNamed items k).map Cluster.DeepCopy := by
  rw [collect_get?]
  cases lastNamed items k with
  | none => simp [GoMap.get?, GoMap.make]
  | some c => rfl

theorem collect_mem_keys (items : List Cluster) (k : String) :
    k ∈ (collect (GoMap.make Cluster) items).keys ↔ ∃ c ∈ items, c.Name = k := by
  rw [Finmap.mem_keys, Finmap.mem_iff, ← lastNamed_isSome]
  have h := collect_empty_get? items k
  unfold GoMap.get? at h
  rw [h]
  cases lastNamed items k with
  | none => simp
  | some c => simp

theorem collect_keys (items : List Cluster) :
    (collect (GoMap.make Cluster) items).keys = (items.map (fun c => c.Name)).toFinset := by
  ext k
  rw [collect_mem_keys]
  simp

theorem collect_perm {xs ys : List Cluster} (hperm : xs.Perm ys)
    (hnd : (xs.map (fun c => c.Name)).Nodup) :
    collect (GoMap.make Cluster) xs = collect (GoMap.make Cluster) ys := by
  have hnd2 : (ys.map (fun c => c.Name)).Nodup := (hperm.map _).nodup_iff.mp hnd
  apply Finmap.ext_lookup
  intro k
  have h1 := collect_empty_get? xs k
  have h2 := collect_empty_get? ys k
  unfold GoMap.get? at h1 h2
  rw [h1, h2]
  cases hx : lastNamed xs k with
  | none =>
    have hy : lastNamed ys k = none := by
      rw [lastNamed_eq_none] at hx ⊢
      intro c hc
      exact hx c (hperm.mem_iff.mpr hc)
    rw [hy]
  | some c =>
    have hc := lastNamed_mem hx
    have hy : lastNamed ys k = some c := by
      have := lastNamed_of_nodup hnd2 (hperm.mem_iff.mp hc.1)
      rwa [hc.2] at this
    rw [hy]

/-! ### The four ways through `PlaceByGenericPlacmentFields` -/

section paths

variable {σ ε α β : Type} (ConvertLabels : Option LabelSelector → Except ε σ)
  (IsNotFound : ε → Bool) (kubeclient : Client σ ε) (placement : GenericPlacementFields)
  (authclient : α) (object : β)

theorem place_convert_error {e : ε}
    (hconv : ConvertLabels (effectiveSelector placement) = .error e) :
    PlaceByGenericPlacmentFields ConvertLabels IsNotFound kubeclient placement authclient object
      = { clmap := none, err := some e,
          calls := [Call.ConvertLabels (effectiveSelector placement)] } := by
  simp [PlaceByGenericPlacmentFields, hconv]

theorem place_list_ok {clSelector : σ} {items : List Cluster}
    (hconv : ConvertLabels (effectiveSelector placement) = .ok clSelector)
    (hlist : kubeclient.List { LabelSelector := some clSelector } [] = (items, none)) :
    PlaceByGenericPlacmentFields ConvertLabels IsNotFound kubeclient placement authclient object
      = { clmap := some (collect (GoMap.make Cluster) items), err := none,
          calls := [Call.ConvertLabels (effectiveSelector placement),
                    Call.List { LabelSelector := some clSelector }] } := by
  simp [PlaceByGenericPlacmentFields, hconv, hlist]

theorem place_list_not_found {clSelector : σ} {e : ε} {items : List Cluster}
    (hconv : ConvertLabels (effectiveSelector placement) = .ok clSelector)
    (hlist : kubeclient.List { LabelSelector := some clSelector } [] = (items, some e))
    (hnf : IsNotFound e = true) :
    PlaceByGenericPlacmentFields ConvertLabels IsNotFound kubeclient placement authclient object
      = { clmap := some (collect (GoMap.make Cluster) items), err := none,
          calls := [Call.ConvertLabels (effectiveSelector placement),
                    Call.List { LabelSelector := some clSelector }] } := by
  simp [PlaceByGenericPlacmentFields, hconv, hlist, hnf]

theorem place_list_error {clSelector : σ} {e : ε} {items : List Cluster}
    (hconv : ConvertLabels (effectiveSelector placement) = .ok clSelector)
    (hlist : kubeclient.List { LabelSelector := some clSelector } [] = (items, some e))
    (hnf : IsNotFound e = false) :
    PlaceByGenericPlacmentFields ConvertLabels IsNotFound kubeclient placement authclient object
      = { clmap := none, err := some e,
          calls := [Call.ConvertLabels (effectiveSelector placement),
                    Call.List { LabelSelector := some clSelector }] } := by
  simp [PlaceByGenericPlacmentFields, hconv, hlist, hnf]

end paths

theorem place_calls {σ ε α β : Type} (ConvertLabels : Option LabelSelector → Except ε σ)
    (IsNotFound : ε → Bool) (kubeclient : Client σ ε) (placement : GenericPlacementFields)
    (authclient : α) (object : β) :
    (PlaceByGenericPlacmentFields ConvertLabels IsNotFound kubeclient placement authclient
        object).calls = [Call.ConvertLabels (effectiveSelector placement)] ∨
    ∃ clSelector, ConvertLabels (effectiveSelector placement) = .ok clSelector ∧
      (PlaceByGenericPlacmentFields ConvertLabels IsNotFound kubeclient placement authclient
        object).calls = [Call.ConvertLabels (effectiveSelector placement),
                         Call.List { LabelSelector := some clSelector }] := by
  cases hconv : ConvertLabels (effectiveSelector placement) with
  | error e =>
    left
    rw [place_convert_error ConvertLabels IsNotFound kubeclient placement authclient object hconv]
  | ok clSelector =>
    right
    refine ⟨clSelector, rfl, ?_⟩
    obtain ⟨items, err, hlist⟩ : ∃ items err,
        kubeclient.List { LabelSelector := some clSelector } [] = (items, err) := ⟨_, _, rfl⟩
    cases err with
    | none =>
      rw [place_list_ok ConvertLabels IsNotFound kubeclient placement authclient object hconv hlist]
    | some e =>
      cases hnf : IsNotFound e with
      | true =>
        rw [place_list_not_found ConvertLabels IsNotFound kubeclient placement authclient object
          hconv hlist hnf]
      | false =>
        rw [place_list_error ConvertLabels IsNotFound kubeclient placement authclient object
          hconv hlist hnf]

/-! ## The claims -/

/-- C6: `ToPlaceLocal` returns false for a nil placement and for a placement
whose `Local` flag is nil, and for a placement with a non-nil `Local` flag it
returns exactly the value the flag points to. -/
theorem toPlaceLocal_spec :
    ToPlaceLocal none = false ∧
    (∀ g : GenericPlacementFields,
      ToPlaceLocal (some { GenericPlacementFields := g, Local := none }) = false) ∧
    (∀ (g : GenericPlacementFields) (b : Bool),
      ToPlaceLocal (some { GenericPlacementFields := g, Local := some b }) = b) :=
  ⟨rfl, fun _ => rfl, fun _ _ => rfl⟩

/-- C1: two placements with the same non-empty `Clusters` list get the same
result from `PlaceByGenericPlacmentFields` (same map, same error, same calls)
whatever their `ClusterSelector` fields are: the selector handed to
`ConvertLabels` is the requirement `name In [names]` built from the cluster
names alone, and `List` is only ever called with the conversion of that
selector. -/
theorem explicit_clusters_ignore_selector {σ ε α β : Type}
    (ConvertLabels : Option LabelSelector → Except ε σ) (IsNotFound : ε → Bool)
    (kubeclient : Client σ ε) (p1 p2 : GenericPlacementFields) (authclient : α) (object : β)
    (hsame : p1.Clusters = p2.Clusters) (hne : p1.Clusters ≠ []) :
    PlaceByGenericPlacmentFields ConvertLabels IsNotFound kubeclient p1 authclient object
      = PlaceByGenericPlacmentFields ConvertLabels IsNotFound kubeclient p2 authclient object ∧
    (PlaceByGenericPlacmentFields ConvertLabels IsNotFound kubeclient p1 authclient
        object).calls.head?
      = some (Call.ConvertLabels (some
          { MatchLabels := [],
            MatchExpressions :=
              [{ Key := "name", Operator := "In",
                 Values := p1.Clusters.map (fun cl => cl.Name) }] })) ∧
    (∀ opts, Call.List opts ∈ (PlaceByGenericPlacmentFields ConvertLabels IsNotFound kubeclient
        p1 authclient object).calls →
      ∃ clSelector,
        ConvertLabels (some
          { MatchLabels := [],
            MatchExpressions :=
              [{ Key := "name", Operator := "In",
                 Values := p1.Clusters.map (fun cl => cl.Name) }] }) = .ok clSelector ∧
        opts.LabelSelector = some clSelector) := by
  have h1 := effectiveSelector_of_ne_nil p1 hne
  have h2 := effectiveSelector_of_ne_nil p2 (hsame ▸ hne)
  rw [← hsame] at h2
  rw [clusterNameSelector_eq] at h1 h2
  refine ⟨?_, ?_, ?_⟩
  · simp only [PlaceByGenericPlacmentFields, h1, h2]
  · rcases place_calls ConvertLabels IsNotFound kubeclient p1 authclient object with h | ⟨_, _, h⟩
    · rw [h, h1]; rfl
    · rw [h, h1]; rfl
  · intro opts hmem
    rcases place_calls ConvertLabels IsNotFound kubeclient p1 authclient object with
      h | ⟨clSelector, hconv, h⟩
    · rw [h] at hmem
      simp at hmem
    · rw [h] at hmem
      rw [h1] at hconv
      refine ⟨clSelector, hconv, ?_⟩
      simp at hmem
      rw [hmem]

/-- Worked example for C1: the names `c1`, `c2` with no selector and with the
selector `env = prod`, against a registry holding `c1` and `c3`. -/
theorem explicit_clusters_ignore_selector_witness :
    ([⟨"c1"⟩, ⟨"c2"⟩] : List GenericClusterReference) ≠ [] ∧
    PlaceByGenericPlacmentFields sampleConvert sampleIsNotFound
        (registryClient [namedCluster "c1", namedCluster "c3"])
        { Clusters := [⟨"c1"⟩, ⟨"c2"⟩], ClusterSelector := none } () ()
      = PlaceByGenericPlacmentFields sampleConvert sampleIsNotFound
        (registryClient [namedCluster "c1", namedCluster "c3"])
        { Clusters := [⟨"c1"⟩, ⟨"c2"⟩],
          ClusterSelector := some envProd }
        () () :=
  ⟨by decide,
   (explicit_clusters_ignore_selector sampleConvert sampleIsNotFound
    (registryClient [namedCluster "c1", namedCluster "c3"])
    { Clusters := [⟨"c1"⟩, ⟨"c2"⟩], ClusterSelector := none }
    { Clusters := [⟨"c1"⟩, ⟨"c2"⟩],
      ClusterSelector := some envProd }
    () () rfl (by decide)).1⟩

/-- C3 as stated fails on a client whose `List` writes into the list it is
handed and reports a not-found error: the selector `env = prod` converts, the
call leaves the cluster `c1` in the list and reports `not found`, and the
returned map is not empty: it holds `c1`. -/
theorem not_found_map_not_empty :
    sampleConvert (effectiveSelector { Clusters := [], ClusterSelector := some envProd })
      = .ok (some envProd) ∧
    ((fillingClient [prodCluster "c1"] "not found").List
        { LabelSelector := some (some envProd) } []).2 = some "not found" ∧
    sampleIsNotFound "not found" = true ∧
    ∃ m, (PlaceByGenericPlacmentFields sampleConvert sampleIsNotFound
        (fillingClient [prodCluster "c1"] "not found")
        { Clusters := [], ClusterSelector := some envProd } () ()).clmap = some m ∧
      m ≠ ∅ ∧ m.len = 1 ∧ m.get? "c1" = some (prodCluster "c1") := by
  refine ⟨rfl, rfl, by decide,
    collect (GoMap.make Cluster) [prodCluster "c1"], rfl, by decide, by decide, by decide⟩

/-- C3, amended: when the selector converts and the `List` call reports a
not-found error, `PlaceByGenericPlacmentFields` returns a non-nil map together
with a nil error, never a nil map with an error; the map holds under each name
the last cluster of that name the call left in the list it was handed, so it
is empty when the call left that list empty. -/
theorem not_found_yields_map_of_listed {σ ε α β : Type}
    (ConvertLabels : Option LabelSelector → Except ε σ) (IsNotFound : ε → Bool)
    (kubeclient : Client σ ε) (placement : GenericPlacementFields) (authclient : α) (object : β)
    (clSelector : σ) (e : ε) (items : List Cluster)
    (hconv : ConvertLabels (effectiveSelector placement) = .ok clSelector)
    (hlist : kubeclient.List { LabelSelector := some clSelector } [] = (items, some e))
    (hnf : IsNotFound e = true) :
    (PlaceByGenericPlacmentFields ConvertLabels IsNotFound kubeclient placement authclient
        object).err = none ∧
    ∃ m, (PlaceByGenericPlacmentFields ConvertLabels IsNotFound kubeclient placement authclient
        object).clmap = some m ∧
      (∀ n, m.get? n = lastNamed items n) ∧
      (∀ n, n ∈ m.keys ↔ ∃ c ∈ items, c.Name = n) ∧
      (items = [] → m = ∅ ∧ m.len = 0) := by
  rw [place_list_not_found ConvertLabels IsNotFound kubeclient placement authclient object
    hconv hlist hnf]
  refine ⟨rfl, _, rfl, ?_, collect_mem_keys items, ?_⟩
  · intro n
    rw [collect_empty_get?]
    cases lastNamed items n with
    | none => rfl
    | some c => simp [DeepCopy_eq]
  · intro h
    subst h
    exact ⟨rfl, rfl⟩

/-- Worked example for amended C3: a selector `env = prod` against a client
whose `List` reports `not found` and leaves the list empty. -/
theorem not_found_yields_map_of_listed_witness :
    sampleConvert (effectiveSelector { Clusters := [], ClusterSelector := some envProd })
      = .ok (some envProd) ∧
    (failingClient "not found").List { LabelSelector := some (some envProd) } []
      = ([], some "not found") ∧
    sampleIsNotFound "not found" = true ∧
    (PlaceByGenericPlacmentFields sampleConvert sampleIsNotFound (failingClient "not found")
        { Clusters := [], ClusterSelector := some envProd } () ()).err = none ∧
    ∃ m, (PlaceByGenericPlacmentFields sampleConvert sampleIsNotFound (failingClient "not found")
        { Clusters := [], ClusterSelector := some envProd } () ()).clmap = some m ∧
      (∀ n, m.get? n = lastNamed [] n) ∧
      (∀ n, n ∈ m.keys ↔ ∃ c ∈ ([] : List Cluster), c.Name = n) ∧
      (([] : List Cluster) = [] → m = ∅ ∧ m.len = 0) :=
  ⟨rfl, rfl, by decide,
   not_found_yields_map_of_listed sampleConvert sampleIsNotFound (failingClient "not found")
    { Clusters := [], ClusterSelector := some envProd } () () (some envProd) "not found" []
    rfl rfl (by decide)⟩

/-- C4: when the selector converts and the `List` call returns an error `e`
that is not a not-found error, `PlaceByGenericPlacmentFields` returns a nil
map and exactly the error `e`. -/
theorem list_error_propagates {σ ε α β : Type}
    (ConvertLabels : Option LabelSelector → Except ε σ) (IsNotFound : ε → Bool)
    (kubeclient : Client σ ε) (placement : GenericPlacementFields) (authclient : α) (object : β)
    (clSelector : σ) (e : ε) (items : List Cluster)
    (hconv : ConvertLabels (effectiveSelector placement) = .ok clSelector)
    (hlist : kubeclient.List { LabelSelector := some clSelector } [] = (items, some e))
    (hnf : IsNotFound e = false) :
    (PlaceByGenericPlacmentFields ConvertLabels IsNotFound kubeclient placement authclient
        object).clmap = none ∧
    (PlaceByGenericPlacmentFields ConvertLabels IsNotFound kubeclient placement authclient
        object).err = some e := by
  rw [place_list_error ConvertLabels IsNotFound kubeclient placement authclient object
    hconv hlist hnf]
  exact ⟨rfl, rfl⟩

/-- Worked example for C4: explicit names against a client whose `List`
reports `connection refused`. -/
theorem list_error_propagates_witness :
    sampleConvert (effectiveSelector { Clusters := [⟨"c1"⟩], ClusterSelector := none })
      = .ok (some (clusterNameSelector [⟨"c1"⟩])) ∧
    (failingClient "connection refused").List
        { LabelSelector := some (some (clusterNameSelector [⟨"c1"⟩])) } []
      = ([], some "connection refused") ∧
    sampleIsNotFound "connection refused" = false ∧
    (PlaceByGenericPlacmentFields sampleConvert sampleIsNotFound
        (failingClient "connection refused")
        { Clusters := [⟨"c1"⟩], ClusterSelector := none } () ()).clmap = none ∧
    (PlaceByGenericPlacmentFields sampleConvert sampleIsNotFound
        (failingClient "connection refused")
        { Clusters := [⟨"c1"⟩], ClusterSelector := none } () ()).err
      = some "connection refused" :=
  ⟨rfl, rfl, by decide,
   list_error_propagates sampleConvert sampleIsNotFound (failingClient "connection refused")
    { Clusters := [⟨"c1"⟩], ClusterSelector := none } () ()
    (some (clusterNameSelector [⟨"c1"⟩])) "connection refused" [] rfl rfl (by decide)⟩

/-- C5: when `ConvertLabels` fails on the effective selector with error `e`,
`PlaceByGenericPlacmentFields` returns a nil map and the error `e`, and the
only call it makes is the conversion: `List` is never invoked. -/
theorem convert_error_skips_list {σ ε α β : Type}
    (ConvertLabels : Option LabelSelector → Except ε σ) (IsNotFound : ε → Bool)
    (kubeclient : Client σ ε) (placement : GenericPlacementFields) (authclient : α) (object : β)
    (e : ε) (hconv : ConvertLabels (effectiveSelector placement) = .error e) :
    (PlaceByGenericPlacmentFields ConvertLabels IsNotFound kubeclient placement authclient
        object).clmap = none ∧
    (PlaceByGenericPlacmentFields ConvertLabels IsNotFound kubeclient placement authclient
        object).err = some e ∧
    (PlaceByGenericPlacmentFields ConvertLabels IsNotFound kubeclient placement authclient
        object).calls = [Call.ConvertLabels (effectiveSelector placement)] ∧
    ∀ opts, Call.List opts ∉ (PlaceByGenericPlacmentFields ConvertLabels IsNotFound kubeclient
        placement authclient object).calls := by
  rw [place_convert_error ConvertLabels IsNotFound kubeclient placement authclient object hconv]
  refine ⟨rfl, rfl, rfl, ?_⟩
  intro opts hmem
  simp at hmem

/-- Worked example for C5: a selector with an empty key, which the sample
conversion refuses, against a registry holding `c1`. -/
theorem convert_error_skips_list_witness :
    sampleConvert (effectiveSelector { Clusters := [], ClusterSelector := some emptyKey })
      = .error "empty key" ∧
    (PlaceByGenericPlacmentFields sampleConvert sampleIsNotFound
        (registryClient [namedCluster "c1"])
        { Clusters := [], ClusterSelector := some emptyKey } () ()).clmap = none ∧
    (PlaceByGenericPlacmentFields sampleConvert sampleIsNotFound
        (registryClient [namedCluster "c1"])
        { Clusters := [], ClusterSelector := some emptyKey } () ()).err = some "empty key" ∧
    (PlaceByGenericPlacmentFields sampleConvert sampleIsNotFound
        (registryClient [namedCluster "c1"])
        { Clusters := [], ClusterSelector := some emptyKey } () ()).calls
      = [Call.ConvertLabels
          (effectiveSelector { Clusters := [], ClusterSelector := some emptyKey })] ∧
    ∀ opts, Call.List opts ∉ (PlaceByGenericPlacmentFields sampleConvert sampleIsNotFound
        (registryClient [namedCluster "c1"])
        { Clusters := [], ClusterSelector := some emptyKey } () ()).calls :=
  ⟨rfl,
   convert_error_skips_list sampleConvert sampleIsNotFound (registryClient [namedCluster "c1"])
    { Clusters := [], ClusterSelector := some emptyKey } () () "empty key" rfl⟩

/-- C7: whenever `PlaceByGenericPlacmentFields` returns a map, every entry
`(k, c)` of it has `c.Name = k`, and `c` is the copy of, and equal to, one of
the clusters that the `List` call made by the function delivered. -/
theorem entries_keyed_by_own_name {σ ε α β : Type}
    (ConvertLabels : Option LabelSelector → Except ε σ) (IsNotFound : ε → Bool)
    (kubeclient : Client σ ε) (placement : GenericPlacementFields) (authclient : α) (object : β)
    (m : GoMap Cluster)
    (hm : (PlaceByGenericPlacmentFields ConvertLabels IsNotFound kubeclient placement authclient
        object).clmap = some m)
    (k : String) (c : Cluster) (hk : m.get? k = some c) :
    c.Name = k ∧
    ∃ opts,
      Call.List opts ∈ (PlaceByGenericPlacmentFields ConvertLabels IsNotFound kubeclient
        placement authclient object).calls ∧
      ∃ c0 ∈ (kubeclient.List opts []).1, c = c0.DeepCopy ∧ c = c0 := by
  have key : ∀ items : List Cluster, m = collect (GoMap.make Cluster) items →
      c.Name = k ∧ ∃ c0 ∈ items, c = c0.DeepCopy ∧ c = c0 := by
    intro items hmi
    subst hmi
    rw [collect_empty_get?] at hk
    cases hl : lastNamed items k with
    | none => rw [hl] at hk; simp at hk
    | some c0 =>
      rw [hl] at hk
      simp only [Option.map_some', Option.some.injEq] at hk
      have hc0 := lastNamed_mem hl
      have hcopy : c = c0 := by rw [← hk, DeepCopy_eq]
      exact ⟨by rw [hcopy]; exact hc0.2, c0, hc0.1, hk.symm, hcopy⟩
  cases hconv : ConvertLabels (effectiveSelector placement) with
  | error e =>
    rw [place_convert_error ConvertLabels IsNotFound kubeclient placement authclient object
      hconv] at hm
    simp at hm
  | ok clSelector =>
    obtain ⟨items, err, hlist⟩ : ∃ items err,
        kubeclient.List { LabelSelector := some clSelector } [] = (items, err) := ⟨_, _, rfl⟩
    have hitems : (kubeclient.List { LabelSelector := some clSelector } []).1 = items := by
      rw [hlist]
    cases err with
    | none =>
      rw [place_list_ok ConvertLabels IsNotFound kubeclient placement authclient object
        hconv hlist] at hm ⊢
      simp only [Option.some.injEq] at hm
      obtain ⟨hname, c0, hc0, h1, h2⟩ := key items hm.symm
      refine ⟨hname, { LabelSelector := some clSelector }, by simp, c0, ?_, h1, h2⟩
      rw [hitems]
      exact hc0
    | some e =>
      cases hnf : IsNotFound e with
      | true =>
        rw [place_list_not_found ConvertLabels IsNotFound kubeclient placement authclient object
          hconv hlist hnf] at hm ⊢
        simp only [Option.some.injEq] at hm
        obtain ⟨hname, c0, hc0, h1, h2⟩ := key items hm.symm
        refine ⟨hname, { LabelSelector := some clSelector }, by simp, c0, ?_, h1, h2⟩
        rw [hitems]
        exact hc0
      | false =>
        rw [place_list_error ConvertLabels IsNotFound kubeclient placement authclient object
          hconv hlist hnf] at hm
        simp at hm

/-- C10: for every list of clusters delivered by `List`, repeated names
included, the map built by `PlaceByGenericPlacmentFields` has as key set the
set of names occurring in the list, every key `n` maps to a copy of the last
cluster of the list whose name is `n`, and the map has at most as many entries
as the list has items. -/
theorem last_listed_cluster_wins {σ ε α β : Type}
    (ConvertLabels : Option LabelSelector → Except ε σ) (IsNotFound : ε → Bool)
    (kubeclient : Client σ ε) (placement : GenericPlacementFields) (authclient : α) (object : β)
    (clSelector : σ) (items : List Cluster)
    (hconv : ConvertLabels (effectiveSelector placement) = .ok clSelector)
    (hlist : kubeclient.List { LabelSelector := some clSelector } [] = (items, none)) :
    ∃ m, (PlaceByGenericPlacmentFields ConvertLabels IsNotFound kubeclient placement authclient
        object).clmap = some m ∧
      m.keys = (items.map (fun c => c.Name)).toFinset ∧
      (∀ n, m.get? n = (lastNamed items n).map Cluster.DeepCopy) ∧
      (∀ n, m.get? n = lastNamed items n) ∧
      m.len ≤ items.length := by
  rw [place_list_ok ConvertLabels IsNotFound kubeclient placement authclient object hconv hlist]
  refine ⟨_, rfl, collect_keys items, collect_empty_get? items, ?_, ?_⟩
  · intro n
    rw [collect_empty_get?]
    cases lastNamed items n with
    | none => rfl
    | some c => simp [DeepCopy_eq]
  · unfold GoMap.len
    rw [collect_keys]
    calc (items.map (fun c => c.Name)).toFinset.card
        ≤ (items.map (fun c => c.Name)).length := List.toFinset_card_le _
      _ = items.length := List.length_map _ _

/-- Worked example for C7: the names `c1`, `c2` against a registry holding
`c1` and `c3`; the entry under `c1` is the registered cluster `c1`. -/
theorem entries_keyed_by_own_name_witness :
    (PlaceByGenericPlacmentFields sampleConvert sampleIsNotFound
        (registryClient [namedCluster "c1", namedCluster "c3"])
        { Clusters := [⟨"c1"⟩, ⟨"c2"⟩], ClusterSelector := none } () ()).clmap
      = some (Finmap.singleton "c1" (namedCluster "c1")) ∧
    GoMap.get? (Finmap.singleton "c1" (namedCluster "c1")) "c1" = some (namedCluster "c1") ∧
    (namedCluster "c1").Name = "c1" ∧
    ∃ opts,
      Call.List opts ∈ (PlaceByGenericPlacmentFields sampleConvert sampleIsNotFound
        (registryClient [namedCluster "c1", namedCluster "c3"])
        { Clusters := [⟨"c1"⟩, ⟨"c2"⟩], ClusterSelector := none } () ()).calls ∧
      ∃ c0 ∈ ((registryClient [namedCluster "c1", namedCluster "c3"]).List opts []).1,
        namedCluster "c1" = c0.DeepCopy ∧ namedCluster "c1" = c0 :=
  ⟨by decide, by decide,
   entries_keyed_by_own_name sampleConvert sampleIsNotFound
    (registryClient [namedCluster "c1", namedCluster "c3"])
    { Clusters := [⟨"c1"⟩, ⟨"c2"⟩], ClusterSelector := none } () ()
    (Finmap.singleton "c1" (namedCluster "c1")) (by decide) "c1" (namedCluster "c1")
    (by decide)⟩

/-- Worked example for C10: a registry delivering two clusters named `a`
(in the namespaces `ns1` and `ns2`) and one named `b`. -/
theorem last_listed_cluster_wins_witness :
    sampleConvert (effectiveSelector { Clusters := [], ClusterSelector := none }) = .ok none ∧
    (registryClient [clusterIn "a" "ns1", clusterIn "a" "ns2", clusterIn "b" "ns1"]).List
        { LabelSelector := some none } []
      = ([clusterIn "a" "ns1", clusterIn "a" "ns2", clusterIn "b" "ns1"], none) ∧
    ∃ m, (PlaceByGenericPlacmentFields sampleConvert sampleIsNotFound
        (registryClient [clusterIn "a" "ns1", clusterIn "a" "ns2", clusterIn "b" "ns1"])
        { Clusters := [], ClusterSelector := none } () ()).clmap = some m ∧
      m.keys = ([clusterIn "a" "ns1", clusterIn "a" "ns2", clusterIn "b" "ns1"].map
        (fun c => c.Name)).toFinset ∧
      (∀ n, m.get? n
        = (lastNamed [clusterIn "a" "ns1", clusterIn "a" "ns2", clusterIn "b" "ns1"] n).map
            Cluster.DeepCopy) ∧
      (∀ n, m.get? n
        = lastNamed [clusterIn "a" "ns1", clusterIn "a" "ns2", clusterIn "b" "ns1"] n) ∧
      m.len ≤ [clusterIn "a" "ns1", clusterIn "a" "ns2", clusterIn "b" "ns1"].length :=
  ⟨rfl, rfl,
   last_listed_cluster_wins sampleConvert sampleIsNotFound
    (registryClient [clusterIn "a" "ns1", clusterIn "a" "ns2", clusterIn "b" "ns1"])
    { Clusters := [], ClusterSelector := none } () () none
    [clusterIn "a" "ns1", clusterIn "a" "ns2", clusterIn "b" "ns1"] rfl rfl⟩

theorem nameSelector_matches (names : List String) (labels : List (String × String)) :
    LabelSelector.Matches
        { MatchLabels := [],
          MatchExpressions := [{ Key := "name", Operator := "In", Values := names }] } labels
      = true ↔ ∃ v, labels.lookup "name" = some v ∧ v ∈ names := by
  simp only [LabelSelector.Matches, LabelSelectorRequirement.Matches, LabelSelectorOpIn,
    List.all_nil, List.all_cons, Bool.and_true, Bool.true_and, if_true]
  cases labels.lookup "name" with
  | none => simp
  | some v => simp

/-- C2 as stated fails on a cluster name that is no valid label value: the
names `c1` and `bad name` against a registry holding `c1`, labelled with its
own name, whose `List` delivers for every selector exactly the registered
clusters satisfying it. The names go into the selector unchecked (lines
58-60), the conversion refuses the value `bad name`, and the function returns
a nil map with that error (lines 71-73) instead of a map with the key `c1`. -/
theorem invalid_name_fails_conversion :
    ({ Clusters := [⟨"c1"⟩, ⟨"bad name"⟩], ClusterSelector := none } :
      GenericPlacementFields).Clusters ≠ [] ∧
    (∀ c ∈ [namedCluster "c1"], c.label "name" = some c.Name) ∧
    (∀ (sel : LabelSelector) (list : List Cluster) (c : Cluster),
      c ∈ ((registryClient [namedCluster "c1"]).List { LabelSelector := some (some sel) }
            list).1 ↔
        c ∈ [namedCluster "c1"] ∧ sel.Matches c.Labels = true) ∧
    (∀ (sel : LabelSelector) (list : List Cluster),
      ((registryClient [namedCluster "c1"]).List { LabelSelector := some (some sel) }
        list).2 = none) ∧
    (PlaceByGenericPlacmentFields sampleConvert sampleIsNotFound
        (registryClient [namedCluster "c1"])
        { Clusters := [⟨"c1"⟩, ⟨"bad name"⟩], ClusterSelector := none } () ()).err
      = some "invalid label value" ∧
    (PlaceByGenericPlacmentFields sampleConvert sampleIsNotFound
        (registryClient [namedCluster "c1"])
        { Clusters := [⟨"c1"⟩, ⟨"bad name"⟩], ClusterSelector := none } () ()).clmap
      = none := by
  refine ⟨by decide, by decide, ?_, fun _ _ => rfl, rfl, rfl⟩
  intro sel list c
  simp [registryClient, List.mem_filter]

/-- C2, amended: for a placement whose `Clusters` list is non-empty and whose
name selector `ConvertLabels` converts, and a registry in which every cluster
carries the label `name` equal to its own name and whose `List` delivers
exactly the registered clusters satisfying the selector `name In [names]`,
`PlaceByGenericPlacmentFields` returns a nil error and a map whose key set is
exactly the set of names in `placement.Clusters` that are names of registered
clusters. -/
theorem explicit_names_resolve_to_registered {σ ε α β : Type}
    (ConvertLabels : Option LabelSelector → Except ε σ) (IsNotFound : ε → Bool)
    (kubeclient : Client σ ε) (placement : GenericPlacementFields) (authclient : α) (object : β)
    (registry : List Cluster) (clSelector : σ) (items : List Cluster)
    (hne : placement.Clusters ≠ [])
    (hconv : ConvertLabels (some
        { MatchLabels := [],
          MatchExpressions :=
            [{ Key := "name", Operator := "In",
               Values := placement.Clusters.map (fun cl => cl.Name) }] }) = .ok clSelector)
    (hlabel : ∀ c ∈ registry, c.label "name" = some c.Name)
    (hlist : kubeclient.List { LabelSelector := some clSelector } [] = (items, none))
    (hexact : ∀ c, c ∈ items ↔ c ∈ registry ∧
      LabelSelector.Matches
        { MatchLabels := [],
          MatchExpressions :=
            [{ Key := "name", Operator := "In",
               Values := placement.Clusters.map (fun cl => cl.Name) }] } c.Labels = true) :
    (PlaceByGenericPlacmentFields ConvertLabels IsNotFound kubeclient placement authclient
        object).err = none ∧
    ∃ m, (PlaceByGenericPlacmentFields ConvertLabels IsNotFound kubeclient placement authclient
        object).clmap = some m ∧
      ∀ k, k ∈ m.keys ↔
        k ∈ placement.Clusters.map (fun cl => cl.Name) ∧ ∃ c ∈ registry, c.Name = k := by
  have heff := effectiveSelector_of_ne_nil placement hne
  rw [clusterNameSelector_eq] at heff
  rw [← heff] at hconv
  rw [place_list_ok ConvertLabels IsNotFound kubeclient placement authclient object hconv hlist]
  refine ⟨rfl, _, rfl, ?_⟩
  intro k
  rw [collect_mem_keys]
  constructor
  · rintro ⟨c, hc, hck⟩
    obtain ⟨hreg, hmatch⟩ := (hexact c).mp hc
    rw [nameSelector_matches] at hmatch
    obtain ⟨v, hv, hvn⟩ := hmatch
    have hl := hlabel c hreg
    unfold Cluster.label at hl
    rw [hl] at hv
    simp only [Option.some.injEq] at hv
    rw [← hv, hck] at hvn
    exact ⟨hvn, c, hreg, hck⟩
  · rintro ⟨hk, c, hreg, hck⟩
    refine ⟨c, (hexact c).mpr ⟨hreg, ?_⟩, hck⟩
    rw [nameSelector_matches]
    refine ⟨c.Name, hlabel c hreg, ?_⟩
    rw [hck]
    exact hk

/-- Worked example for amended C2: the names `c1`, `c2`, `missing` against a registry
holding `c1` and `c2`. -/
theorem explicit_names_resolve_to_registered_witness :
    sampleConvert (some (clusterNameSelector [⟨"c1"⟩, ⟨"c2"⟩, ⟨"missing"⟩]))
      = .ok (some (clusterNameSelector [⟨"c1"⟩, ⟨"c2"⟩, ⟨"missing"⟩])) ∧
    (∀ c ∈ [namedCluster "c1", namedCluster "c2"], c.label "name" = some c.Name) ∧
    (registryClient [namedCluster "c1", namedCluster "c2"]).List
        { LabelSelector := some (some (clusterNameSelector [⟨"c1"⟩, ⟨"c2"⟩, ⟨"missing"⟩])) } []
      = ([namedCluster "c1", namedCluster "c2"], none) ∧
    (PlaceByGenericPlacmentFields sampleConvert sampleIsNotFound
        (registryClient [namedCluster "c1", namedCluster "c2"])
        { Clusters := [⟨"c1"⟩, ⟨"c2"⟩, ⟨"missing"⟩], ClusterSelector := none } () ()).err
      = none ∧
    ∃ m, (PlaceByGenericPlacmentFields sampleConvert sampleIsNotFound
        (registryClient [namedCluster "c1", namedCluster "c2"])
        { Clusters := [⟨"c1"⟩, ⟨"c2"⟩, ⟨"missing"⟩], ClusterSelector := none } () ()).clmap
        = some m ∧
      ∀ k, k ∈ m.keys ↔
        k ∈ ["c1", "c2", "missing"] ∧
          ∃ c ∈ [namedCluster "c1", namedCluster "c2"], c.Name = k :=
  ⟨rfl, by decide, rfl,
   explicit_names_resolve_to_registered sampleConvert sampleIsNotFound
    (registryClient [namedCluster "c1", namedCluster "c2"])
    { Clusters := [⟨"c1"⟩, ⟨"c2"⟩, ⟨"missing"⟩], ClusterSelector := none } () ()
    [namedCluster "c1", namedCluster "c2"]
    (some (clusterNameSelector [⟨"c1"⟩, ⟨"c2"⟩, ⟨"missing"⟩]))
    [namedCluster "c1", namedCluster "c2"]
    (by decide) rfl (by decide) rfl
    (by
      intro c
      constructor
      · intro h
        refine ⟨h, ?_⟩
        simp only [List.mem_cons, List.mem_singleton, List.not_mem_nil, or_false] at h
        rcases h with rfl | rfl <;> decide
      · exact fun h => h.1)⟩

/-- C8 as stated fails on a list with a repeated name: with an empty
`Clusters` list and a `List` call delivering two clusters named `a`, from the
namespaces `ns1` and `ns2`, the returned map does not hold the first of them. -/
theorem listed_cluster_missing_from_map :
    sampleConvert (effectiveSelector { Clusters := [], ClusterSelector := none }) = .ok none ∧
    (registryClient [clusterIn "a" "ns1", clusterIn "a" "ns2"]).List
        { LabelSelector := some none } [] = ([clusterIn "a" "ns1", clusterIn "a" "ns2"], none) ∧
    ∃ m, (PlaceByGenericPlacmentFields sampleConvert sampleIsNotFound
        (registryClient [clusterIn "a" "ns1", clusterIn "a" "ns2"])
        { Clusters := [], ClusterSelector := none } () ()).clmap = some m ∧
      ¬ (∀ c, c ∈ [clusterIn "a" "ns1", clusterIn "a" "ns2"] ↔ ∃ k, m.get? k = some c) := by
  refine ⟨rfl, rfl, collect (GoMap.make Cluster) [clusterIn "a" "ns1", clusterIn "a" "ns2"],
    rfl, ?_⟩
  intro h
  obtain ⟨k, hk⟩ := (h (clusterIn "a" "ns1")).mp (by simp)
  rw [collect_empty_get?] at hk
  cases hl : lastNamed [clusterIn "a" "ns1", clusterIn "a" "ns2"] k with
  | none => rw [hl] at hk; simp at hk
  | some c =>
    rw [hl] at hk
    simp only [Option.map_some', Option.some.injEq, DeepCopy_eq] at hk
    subst hk
    have hname := (lastNamed_mem hl).2
    have hk2 : k = "a" := hname.symm
    subst hk2
    revert hl
    decide

/-- C8, amended: for a placement with an empty `Clusters` list,
`PlaceByGenericPlacmentFields` hands `placement.ClusterSelector` unchanged to
the conversion and, when `List` succeeds, returns a nil error and a map that
holds only clusters `List` delivered, each under its own name, with an entry
for every delivered name, and that holds exactly the delivered clusters when
their names are pairwise distinct; two delivered lists that are permutations
of each other with pairwise distinct names give equal maps. -/
theorem selector_placement_resolves {σ ε α β : Type}
    (ConvertLabels : Option LabelSelector → Except ε σ) (IsNotFound : ε → Bool)
    (kubeclient : Client σ ε) (placement : GenericPlacementFields) (authclient : α) (object : β)
    (hempty : placement.Clusters = []) :
    (PlaceByGenericPlacmentFields ConvertLabels IsNotFound kubeclient placement authclient
        object).calls.head? = some (Call.ConvertLabels placement.ClusterSelector) ∧
    (∀ clSelector items,
      ConvertLabels placement.ClusterSelector = .ok clSelector →
      kubeclient.List { LabelSelector := some clSelector } [] = (items, none) →
      (PlaceByGenericPlacmentFields ConvertLabels IsNotFound kubeclient placement authclient
        object).err = none ∧
      ∃ m, (PlaceByGenericPlacmentFields ConvertLabels IsNotFound kubeclient placement authclient
          object).clmap = some m ∧
        (∀ k c, m.get? k = some c → c ∈ items ∧ c.Name = k) ∧
        (∀ k, k ∈ m.keys ↔ ∃ c ∈ items, c.Name = k) ∧
        ((items.map (fun c => c.Name)).Nodup → ∀ c, c ∈ items ↔ ∃ k, m.get? k = some c)) ∧
    (∀ (kubeclient2 : Client σ ε) clSelector items items2,
      ConvertLabels placement.ClusterSelector = .ok clSelector →
      kubeclient.List { LabelSelector := some clSelector } [] = (items, none) →
      kubeclient2.List { LabelSelector := some clSelector } [] = (items2, none) →
      items.Perm items2 → (items.map (fun c => c.Name)).Nodup →
      (PlaceByGenericPlacmentFields ConvertLabels IsNotFound kubeclient placement authclient
        object).clmap
        = (PlaceByGenericPlacmentFields ConvertLabels IsNotFound kubeclient2 placement authclient
            object).clmap) := by
  have heff := effectiveSelector_of_nil placement hempty
  have hget : ∀ (items : List Cluster) (k : String) (c : Cluster),
      (collect (GoMap.make Cluster) items).get? k = some c → c ∈ items ∧ c.Name = k := by
    intro items k c hk
    rw [collect_empty_get?] at hk
    cases hl : lastNamed items k with
    | none => rw [hl] at hk; simp at hk
    | some c0 =>
      rw [hl] at hk
      simp only [Option.map_some', Option.some.injEq, DeepCopy_eq] at hk
      subst hk
      exact lastNamed_mem hl
  refine ⟨?_, ?_, ?_⟩
  · rcases place_calls ConvertLabels IsNotFound kubeclient placement authclient object with
      h | ⟨_, _, h⟩
    · rw [h, heff]; rfl
    · rw [h, heff]; rfl
  · intro clSelector items hconv hlist
    rw [← heff] at hconv
    rw [place_list_ok ConvertLabels IsNotFound kubeclient placement authclient object hconv hlist]
    refine ⟨rfl, _, rfl, hget items, collect_mem_keys items, ?_⟩
    intro hnd c
    constructor
    · intro hc
      refine ⟨c.Name, ?_⟩
      rw [collect_empty_get?, lastNamed_of_nodup hnd hc]
      simp [DeepCopy_eq]
    · rintro ⟨k, hk⟩
      exact (hget items k c hk).1
  · intro kubeclient2 clSelector items items2 hconv hlist hlist2 hperm hnd
    rw [← heff] at hconv
    rw [place_list_ok ConvertLabels IsNotFound kubeclient placement authclient object hconv hlist,
      place_list_ok ConvertLabels IsNotFound kubeclient2 placement authclient object hconv hlist2]
    simp only [Option.some.injEq]
    exact collect_perm hperm hnd

/-- Worked example for amended C8: the selector `env = prod` against a registry
holding `c1` and `c2`, both labelled `env = prod`, listed in either order. -/
theorem selector_placement_resolves_witness :
    ({ Clusters := [], ClusterSelector := some envProd } : GenericPlacementFields).Clusters = [] ∧
    (PlaceByGenericPlacmentFields sampleConvert sampleIsNotFound
        (registryClient [prodCluster "c1", prodCluster "c2"])
        { Clusters := [], ClusterSelector := some envProd } () ()).clmap
      = (PlaceByGenericPlacmentFields sampleConvert sampleIsNotFound
        (registryClient [prodCluster "c2", prodCluster "c1"])
        { Clusters := [], ClusterSelector := some envProd } () ()).clmap :=
  ⟨rfl,
   (selector_placement_resolves sampleConvert sampleIsNotFound
    (registryClient [prodCluster "c1", prodCluster "c2"])
    { Clusters := [], ClusterSelector := some envProd } () () rfl).2.2
    (registryClient [prodCluster "c2", prodCluster "c1"]) (some envProd)
    [prodCluster "c1", prodCluster "c2"] [prodCluster "c2", prodCluster "c1"]
    rfl rfl rfl (List.Perm.swap _ _ _) (by decide)⟩

/-! ### The polling task -/

theorem poll_keeps_polling {σ ε : Type} (clReader : Nat → Client σ ε) (s : Nat → Bool)
    (fuel n : Nat)
    (hopen : ∀ j, n ≤ j → j < n + fuel → s j = false)
    (hnot : ∀ j, n ≤ j → j < n + fuel → IsReadyACMClusterRegistry (clReader j) = false) :
    poll clReader s fuel n = { started := true, probes := n + fuel, status := Status.polling } := by
  induction fuel generalizing n with
  | zero => simp [poll]
  | succ f ih =>
    have h1 := hopen n (Nat.le_refl n) (by omega)
    have h2 := hnot n (Nat.le_refl n) (by omega)
    simp only [poll, h1, h2, Bool.false_eq_true, if_false]
    rw [ih (n + 1) (fun j hj hlt => hopen j (by omega) (by omega))
      (fun j hj hlt => hnot j (by omega) (by omega))]
    congr 1
    omega

theorem poll_exits {σ ε : Type} (clReader : Nat → Client σ ε) (s : Nat → Bool)
    (fuel n k : Nat) (hnk : n ≤ k) (hfuel : k - n < fuel)
    (hopen : ∀ j, n ≤ j → j ≤ k → s j = false)
    (hnot : ∀ j, n ≤ j → j < k → IsReadyACMClusterRegistry (clReader j) = false)
    (hready : IsReadyACMClusterRegistry (clReader k) = true) :
    poll clReader s fuel n = { started := true, probes := k + 1, status := Status.exited 1 } := by
  induction fuel generalizing n with
  | zero => omega
  | succ f ih =>
    have h1 := hopen n (Nat.le_refl n) hnk
    by_cases hk : n = k
    · subst hk
      simp [poll, h1, hready]
    · have h2 := hnot n (Nat.le_refl n) (by omega)
      simp only [poll, h1, h2, Bool.false_eq_true, if_false]
      exact ih (n + 1) (by omega) (by omega) (fun j hj hle => hopen j (by omega) hle)
        (fun j hj hlt => hnot j (by omega) hlt)

theorem poll_exited_only_when_ready {σ ε : Type} (clReader : Nat → Client σ ε) (s : Nat → Bool)
    (fuel n code : Nat) (h : (poll clReader s fuel n).status = Status.exited code) :
    code = 1 ∧ n < (poll clReader s fuel n).probes ∧
    IsReadyACMClusterRegistry (clReader ((poll clReader s fuel n).probes - 1)) = true ∧
    ∀ j, n ≤ j → j < (poll clReader s fuel n).probes - 1 →
      IsReadyACMClusterRegistry (clReader j) = false := by
  induction fuel generalizing n with
  | zero => simp [poll] at h
  | succ f ih =>
    cases hs : s n with
    | true => simp [poll, hs] at h
    | false =>
      cases hr : IsReadyACMClusterRegistry (clReader n) with
      | true =>
        have hp : poll clReader s (f + 1) n
            = { started := true, probes := n + 1, status := Status.exited 1 } := by
          simp [poll, hs, hr]
        rw [hp] at h ⊢
        simp only [Status.exited.injEq] at h
        refine ⟨h.symm, Nat.lt_succ_self n, by simpa using hr, ?_⟩
        intro j hj hlt
        simp only [Nat.add_sub_cancel] at hlt
        omega
      | false =>
        have hp : poll clReader s (f + 1) n = poll clReader s f (n + 1) := by
          simp [poll, hs, hr]
        rw [hp] at h ⊢
        obtain ⟨hc, hlt, hready, hall⟩ := ih (n + 1) h
        refine ⟨hc, by omega, hready, ?_⟩
        intro j hj hjlt
        by_cases hjn : j = n
        · subst hjn
          exact hr
        · exact hall j (by omega) hjlt

theorem poll_started {σ ε : Type} (clReader : Nat → Client σ ε) (s : Nat → Bool)
    (fuel n : Nat) : (poll clReader s fuel n).started = true := by
  induction fuel generalizing n with
  | zero => simp [poll]
  | succ f ih =>
    unfold poll
    split
    · rfl
    · split
      · rfl
      · exact ih (n + 1)

/-- C9: `DetectClusterRegistry` over the sequence of probe outcomes, a probe
succeeding exactly when `List` reports no error. If the initial probe
succeeds, no polling task is started and the run never exits. If the initial
probe fails, the polling task is started; whenever the run exits, it exits
with status 1 at a successful polling probe before which every probe failed;
and if the `k`-th polling probe is the first successful one and the stop
channel is open until then, the run exits with status 1 right after that
probe, `k + 1` probes in all, and is still polling after fewer rounds. -/
theorem detect_exits_at_first_ready_probe {σ ε : Type} (clReader : Nat → Client σ ε)
    (s : Nat → Bool) :
    (∀ n, IsReadyACMClusterRegistry (clReader n) = true ↔
      ((clReader n).List { LabelSelector := none } []).2 = none) ∧
    (IsReadyACMClusterRegistry (clReader 0) = true →
      ∀ fuel, DetectClusterRegistry clReader s fuel
        = { started := false, probes := 1, status := Status.returned }) ∧
    (IsReadyACMClusterRegistry (clReader 0) = false →
      (∀ fuel, (DetectClusterRegistry clReader s fuel).started = true) ∧
      (∀ fuel code, (DetectClusterRegistry clReader s fuel).status = Status.exited code →
        code = 1 ∧ 2 ≤ (DetectClusterRegistry clReader s fuel).probes ∧
        IsReadyACMClusterRegistry
          (clReader ((DetectClusterRegistry clReader s fuel).probes - 1)) = true ∧
        ∀ j, j < (DetectClusterRegistry clReader s fuel).probes - 1 →
          IsReadyACMClusterRegistry (clReader j) = false) ∧
      (∀ k, 1 ≤ k →
        (∀ j, j < k → IsReadyACMClusterRegistry (clReader j) = false) →
        IsReadyACMClusterRegistry (clReader k) = true →
        (∀ j, 1 ≤ j → j ≤ k → s j = false) →
        (∀ fuel, k ≤ fuel → DetectClusterRegistry clReader s fuel
          = { started := true, probes := k + 1, status := Status.exited 1 }) ∧
        (∀ fuel, fuel < k → DetectClusterRegistry clReader s fuel
          = { started := true, probes := fuel + 1, status := Status.polling }))) := by
  refine ⟨?_, ?_, ?_⟩
  · intro n
    unfold IsReadyACMClusterRegistry
    cases h : ((clReader n).List { LabelSelector := none } []).2 with
    | none => simp [h]
    | some e => simp [h]
  · intro h fuel
    simp [DetectClusterRegistry, h]
  · intro h0
    have hD : ∀ fuel, DetectClusterRegistry clReader s fuel = poll clReader s fuel 1 := by
      intro fuel
      simp [DetectClusterRegistry, h0]
    refine ⟨?_, ?_, ?_⟩
    · intro fuel
      rw [hD]
      exact poll_started clReader s fuel 1
    · intro fuel code hex
      rw [hD] at hex ⊢
      obtain ⟨hc, hlt, hready, hall⟩ := poll_exited_only_when_ready clReader s fuel 1 code hex
      refine ⟨hc, hlt, hready, ?_⟩
      intro j hj
      by_cases hj0 : j = 0
      · subst hj0
        exact h0
      · exact hall j (by omega) hj
    · intro k hk hnot hready hopen
      constructor
      · intro fuel hfuel
        rw [hD]
        exact poll_exits clReader s fuel 1 k hk (by omega) hopen (fun j _ hlt => hnot j hlt) hready
      · intro fuel hfuel
        rw [hD, poll_keeps_polling clReader s fuel 1
          (fun j hj hlt => hopen j hj (by omega)) (fun j _ hlt => hnot j (by omega))]
        congr 1
        omega

/-- Worked example for C9: a registry failing on the first two probes and
succeeding on the third, the stop channel never closed: still polling after
one round (two probes made), exited with status 1 after the third probe. -/
theorem detect_exits_at_first_ready_probe_witness :
    IsReadyACMClusterRegistry (readyAfter 2 0) = false ∧
    IsReadyACMClusterRegistry (readyAfter 2 1) = false ∧
    IsReadyACMClusterRegistry (readyAfter 2 2) = true ∧
    (∀ fuel, 2 ≤ fuel → DetectClusterRegistry (readyAfter 2) (fun _ => false) fuel
      = { started := true, probes := 3, status := Status.exited 1 }) ∧
    (∀ fuel, fuel < 2 → DetectClusterRegistry (readyAfter 2) (fun _ => false) fuel
      = { started := true, probes := fuel + 1, status := Status.polling }) :=
  ⟨by decide, by decide, by decide,
   ((detect_exits_at_first_ready_probe (readyAfter 2) (fun _ => false)).2.2 (by decide)).2.2 2
    (by decide) (by decide) (by decide) (fun _ _ _ => rfl)⟩

end PlacementUtils
